import Mathlib

/-!
Verification of the RewardProcessor contract (src/src/lib.rs).

The contract stores four configuration values (multiply_factor, owner,
percentage_denominator, percentage_bonus), computes a time-decayed reward
with optional additive bonuses, and gates the three mutators behind a
single-owner check.

Modelling choices:
- U256 values are natural numbers below 2 ^ 256; arithmetic wraps modulo
  2 ^ 256, matching the wrapping semantics of the 256-bit integer type in
  release builds.  `add256`, `sub256`, `mul256` are the wrapping operators.
- Division is natural-number (truncating) division, which agrees with U256
  division whenever the divisor is nonzero; `calculate_reward_at_time_checked`
  additionally models the division-by-zero failure mode explicitly.
- The caller identity (a 20-byte address, obtained from tx_origin in the
  source) is modelled as a natural number parameter passed to each operation.
- Fallible operations return `Except`; an `Except.error` result corresponds
  to the whole call reverting, i.e. the pre-call state persists.  The helper
  `applyResult` makes the resulting observable state explicit.
-/

def M256 : Nat := 2 ^ 256

/-- Wrapping 256-bit addition. -/
def add256 (a b : Nat) : Nat := (a + b) % M256

/-- Wrapping 256-bit subtraction (arguments are reduced modulo 2 ^ 256). -/
def sub256 (a b : Nat) : Nat := (a % M256 + M256 - b % M256) % M256

/-- Wrapping 256-bit multiplication. -/
def mul256 (a b : Nat) : Nat := a * b % M256

/-- The persisted contract state: the four configuration slots of the
`RewardProcessor` storage struct. -/
structure RewardProcessor where
  multiply_factor : Nat
  owner : Nat
  percentage_denominator : Nat
  percentage_bonus : Nat
  deriving DecidableEq, Repr

/-- Error raised by the constructor. -/
inductive ConstructorError where
  | invalidMultiplyFactor
  deriving DecidableEq, Repr

/-- Errors raised by the mutators and the owner guard. -/
inductive CommonError where
  | unauthorized
  | zeroValue
  | invalidMultiplyFactor
  deriving DecidableEq, Repr

/-- The constructor: rejects a zero multiply factor, otherwise initialises
all four slots (owner is set to the constructing identity). -/
def constructor (caller multiply_factor_ : Nat) :
    Except ConstructorError RewardProcessor :=
  if multiply_factor_ = 0 then
    Except.error ConstructorError.invalidMultiplyFactor
  else
    Except.ok { multiply_factor := multiply_factor_, owner := caller,
                percentage_denominator := 10000, percentage_bonus := 1000 }

/-- The reward computation at an explicit time, translated line by line from
`calculate_reward_at_time` in the source. -/
def calculate_reward_at_time (s : RewardProcessor)
    (amount current_time start_time end_time : Nat)
    (has_bonus has_strict_bonus : Bool) : Nat :=
  let time_decay_multiplier :=
    if current_time ≤ start_time then
      s.percentage_denominator
    else if current_time ≥ end_time then
      s.percentage_denominator / 2
    else
      let total_duration := sub256 end_time start_time
      let elapsed_time := sub256 current_time start_time
      let max_multiplier := s.percentage_denominator
      let min_multiplier := s.percentage_denominator / 2
      let decay_range := sub256 max_multiplier min_multiplier
      let decay_amount := mul256 decay_range elapsed_time / total_duration
      sub256 max_multiplier decay_amount
  let reward := mul256 amount time_decay_multiplier / s.percentage_denominator
  let reward :=
    if has_bonus then
      add256 reward (mul256 amount s.percentage_bonus / s.percentage_denominator)
    else reward
  let reward :=
    if has_strict_bonus then
      add256 reward (mul256 amount s.multiply_factor / s.percentage_denominator)
    else reward
  reward

/-- The reward computation with every division guarded: `none` models the
panic (revert) that U256 division by zero would raise.  Apart from the
guards this is the same computation as `calculate_reward_at_time`. -/
def calculate_reward_at_time_checked (s : RewardProcessor)
    (amount current_time start_time end_time : Nat)
    (has_bonus has_strict_bonus : Bool) : Option Nat :=
  let D := s.percentage_denominator
  let multOpt : Option Nat :=
    if current_time ≤ start_time then
      some D
    else if current_time ≥ end_time then
      some (D / 2)
    else
      let total_duration := sub256 end_time start_time
      let elapsed_time := sub256 current_time start_time
      let decay_range := sub256 D (D / 2)
      if total_duration = 0 then none
      else some (sub256 D (mul256 decay_range elapsed_time / total_duration))
  match multOpt with
  | none => none
  | some time_decay_multiplier =>
    if D = 0 then none
    else
      let reward := mul256 amount time_decay_multiplier / D
      let reward :=
        if has_bonus then add256 reward (mul256 amount s.percentage_bonus / D)
        else reward
      let reward :=
        if has_strict_bonus then add256 reward (mul256 amount s.multiply_factor / D)
        else reward
      some reward

/-- The owner guard: succeeds exactly when the caller is the stored owner. -/
def assert_owner (s : RewardProcessor) (caller : Nat) : Except CommonError Unit :=
  if caller ≠ s.owner then Except.error CommonError.unauthorized
  else Except.ok ()

/-- Owner-gated update of the multiply factor; zero is rejected. -/
def update_multiply_factor (s : RewardProcessor) (caller new_factor : Nat) :
    Except CommonError RewardProcessor :=
  match assert_owner s caller with
  | Except.error e => Except.error e
  | Except.ok _ =>
    if new_factor = 0 then Except.error CommonError.invalidMultiplyFactor
    else Except.ok { s with multiply_factor := new_factor }

/-- Owner-gated update of the percentage bonus; zero is rejected. -/
def update_percentage_bonus (s : RewardProcessor) (caller new_bonus : Nat) :
    Except CommonError RewardProcessor :=
  match assert_owner s caller with
  | Except.error e => Except.error e
  | Except.ok _ =>
    if new_bonus = 0 then Except.error CommonError.zeroValue
    else Except.ok { s with percentage_bonus := new_bonus }

/-- Owner-gated ownership transfer; the new owner is not validated. -/
def transfer_ownership (s : RewardProcessor) (caller new_owner : Nat) :
    Except CommonError RewardProcessor :=
  match assert_owner s caller with
  | Except.error e => Except.error e
  | Except.ok _ => Except.ok { s with owner := new_owner }

/-- The observable state after a call: the new state on success, the
unchanged pre-call state on failure (the environment reverts failed calls,
and in the source no storage write precedes any early error return). -/
def applyResult (s : RewardProcessor)
    (r : Except CommonError RewardProcessor) : RewardProcessor :=
  match r with
  | Except.ok s2 => s2
  | Except.error _ => s

/-- The time-decay multiplier as stated by the specification, on unbounded
natural numbers (no wrapping): D before the window, D / 2 after it, linear
interpolation strictly inside it. -/
def decayMultiplier (D current_time start_time end_time : Nat) : Nat :=
  if current_time ≤ start_time then D
  else if end_time ≤ current_time then D / 2
  else D - (D - D / 2) * (current_time - start_time) / (end_time - start_time)

/-- The state invariant: strictly positive multiply factor and percentage
bonus, and the denominator fixed at 10000. -/
def ConfigInv (s : RewardProcessor) : Prop :=
  0 < s.multiply_factor ∧ 0 < s.percentage_bonus ∧
  s.percentage_denominator = 10000

instance (s : RewardProcessor) : Decidable (ConfigInv s) := by
  unfold ConfigInv; infer_instance

/- Sanity checks against the test scenarios in the source. -/
example :
    calculate_reward_at_time ⟨5000, 1, 10000, 1000⟩ 1000 1000 1000 2000 false false
      = 1000 := by decide
example :
    calculate_reward_at_time ⟨5000, 1, 10000, 1000⟩ 1000 1500 1000 2000 false false
      = 750 := by decide
example :
    calculate_reward_at_time ⟨5000, 1, 10000, 1000⟩ 1000 2000 1000 2000 false false
      = 500 := by decide
example :
    calculate_reward_at_time ⟨5000, 1, 10000, 1000⟩ 1000 500 1000 2000 false false
      = 1000 := by decide
example :
    calculate_reward_at_time ⟨5000, 1, 10000, 1000⟩ 1000 3000 1000 2000 false false
      = 500 := by decide
example :
    calculate_reward_at_time ⟨5000, 1, 10000, 1000⟩ 1000 1000 1000 2000 true true
      = 1600 := by decide
example :
    calculate_reward_at_time ⟨5000, 1, 10000, 1000⟩ 1000 1500 1000 2000 true true
      = 1350 := by decide

/-! Arithmetic helper lemmas about the wrapping operators. -/

theorem M256_pos : 0 < M256 := by
  unfold M256
  exact Nat.pos_pow_of_pos 256 (by norm_num)

theorem mul256_lt (a b : Nat) : mul256 a b < M256 :=
  Nat.mod_lt _ M256_pos

theorem mul256_eq (a b : Nat) (h : a * b < M256) : mul256 a b = a * b :=
  Nat.mod_eq_of_lt h

theorem add256_eq (a b : Nat) (h : a + b < M256) : add256 a b = a + b :=
  Nat.mod_eq_of_lt h

theorem sub256_eq (a b : Nat) (hba : b ≤ a) (ha : a < M256) : sub256 a b = a - b := by
  have hb : b < M256 := lt_of_le_of_lt hba ha
  unfold sub256
  rw [Nat.mod_eq_of_lt ha, Nat.mod_eq_of_lt hb]
  have h : a + M256 - b = M256 + (a - b) := by omega
  rw [h, Nat.add_mod_left, Nat.mod_eq_of_lt (by omega)]

/-! Helper lemmas shared by several claim proofs. -/

theorem unauthorized_mutators_aux (s : RewardProcessor) (caller v : Nat)
    (h : caller ≠ s.owner) :
    update_multiply_factor s caller v = Except.error CommonError.unauthorized ∧
    update_percentage_bonus s caller v = Except.error CommonError.unauthorized ∧
    transfer_ownership s caller v = Except.error CommonError.unauthorized ∧
    applyResult s (update_multiply_factor s caller v) = s ∧
    applyResult s (update_percentage_bonus s caller v) = s ∧
    applyResult s (transfer_ownership s caller v) = s := by
  unfold update_multiply_factor update_percentage_bonus transfer_ownership
    assert_owner applyResult
  simp [h]

/-- C3: every mutator invoked by a non-owner fails with Unauthorized; the
value argument is universally quantified (including the invalid value 0),
so the owner check fires before any value validation, and the observable
state after the failed call is unchanged in every field. -/
theorem C3_mutators_unauthorized (s : RewardProcessor) (caller v : Nat)
    (h : caller ≠ s.owner) :
    update_multiply_factor s caller v = Except.error CommonError.unauthorized ∧
    update_percentage_bonus s caller v = Except.error CommonError.unauthorized ∧
    transfer_ownership s caller v = Except.error CommonError.unauthorized ∧
    applyResult s (update_multiply_factor s caller v) = s ∧
    applyResult s (update_percentage_bonus s caller v) = s ∧
    applyResult s (transfer_ownership s caller v) = s :=
  unauthorized_mutators_aux s caller v h

theorem C3_mutators_unauthorized_witness :
    update_multiply_factor ⟨5, 1, 10000, 1000⟩ 2 0 = Except.error CommonError.unauthorized ∧
    update_percentage_bonus ⟨5, 1, 10000, 1000⟩ 2 0 = Except.error CommonError.unauthorized ∧
    transfer_ownership ⟨5, 1, 10000, 1000⟩ 2 0 = Except.error CommonError.unauthorized ∧
    applyResult ⟨5, 1, 10000, 1000⟩ (update_multiply_factor ⟨5, 1, 10000, 1000⟩ 2 0) = ⟨5, 1, 10000, 1000⟩ ∧
    applyResult ⟨5, 1, 10000, 1000⟩ (update_percentage_bonus ⟨5, 1, 10000, 1000⟩ 2 0) = ⟨5, 1, 10000, 1000⟩ ∧
    applyResult ⟨5, 1, 10000, 1000⟩ (transfer_ownership ⟨5, 1, 10000, 1000⟩ 2 0) = ⟨5, 1, 10000, 1000⟩ :=
  C3_mutators_unauthorized ⟨5, 1, 10000, 1000⟩ 2 0 (by decide)

/-- C4: the constructor rejects a zero initial multiply factor with
InvalidMultiplyFactor (writing no state), and for every nonzero initial
factor succeeds, leaving multiply_factor the given value, owner the
constructing identity, percentage_denominator 10000 and
percentage_bonus 1000. -/
theorem C4_constructor_spec (caller imf : Nat) (h : imf ≠ 0) :
    constructor caller 0 = Except.error ConstructorError.invalidMultiplyFactor ∧
    constructor caller imf = Except.ok ⟨imf, caller, 10000, 1000⟩ := by
  unfold constructor
  simp [h]

theorem C4_constructor_spec_witness :
    constructor 7 0 = Except.error ConstructorError.invalidMultiplyFactor ∧
    constructor 7 3 = Except.ok ⟨3, 7, 10000, 1000⟩ :=
  C4_constructor_spec 7 3 (by decide)

/-- C6: called by the owner with value 0, update_multiply_factor fails with
InvalidMultiplyFactor and update_percentage_bonus fails with ZeroValue; in
both cases the observable state is unchanged in every field. -/
theorem C6_owner_zero_rejected (s : RewardProcessor) (caller : Nat)
    (h : caller = s.owner) :
    update_multiply_factor s caller 0 = Except.error CommonError.invalidMultiplyFactor ∧
    update_percentage_bonus s caller 0 = Except.error CommonError.zeroValue ∧
    applyResult s (update_multiply_factor s caller 0) = s ∧
    applyResult s (update_percentage_bonus s caller 0) = s := by
  unfold update_multiply_factor update_percentage_bonus assert_owner applyResult
  simp [h]

theorem C6_owner_zero_rejected_witness :
    update_multiply_factor ⟨5, 1, 10000, 1000⟩ 1 0 = Except.error CommonError.invalidMultiplyFactor ∧
    update_percentage_bonus ⟨5, 1, 10000, 1000⟩ 1 0 = Except.error CommonError.zeroValue ∧
    applyResult ⟨5, 1, 10000, 1000⟩ (update_multiply_factor ⟨5, 1, 10000, 1000⟩ 1 0) = ⟨5, 1, 10000, 1000⟩ ∧
    applyResult ⟨5, 1, 10000, 1000⟩ (update_percentage_bonus ⟨5, 1, 10000, 1000⟩ 1 0) = ⟨5, 1, 10000, 1000⟩ :=
  C6_owner_zero_rejected ⟨5, 1, 10000, 1000⟩ 1 rfl

/-- C8: assert_owner succeeds exactly when the caller equals the stored
owner and fails with Unauthorized otherwise; it takes the state read-only
and returns no state, so it has no side effects. -/
theorem C8_assert_owner_spec (s : RewardProcessor) (caller : Nat) :
    (assert_owner s caller = Except.ok () ↔ caller = s.owner) ∧
    (caller ≠ s.owner →
      assert_owner s caller = Except.error CommonError.unauthorized) := by
  unfold assert_owner
  by_cases h : caller = s.owner <;> simp [h]

theorem C8_assert_owner_spec_witness :
    assert_owner ⟨5, 1, 10000, 1000⟩ 1 = Except.ok () ∧
    assert_owner ⟨5, 1, 10000, 1000⟩ 2 = Except.error CommonError.unauthorized :=
  ⟨(C8_assert_owner_spec ⟨5, 1, 10000, 1000⟩ 1).1.mpr rfl,
   (C8_assert_owner_spec ⟨5, 1, 10000, 1000⟩ 2).2 (by decide)⟩

/-- C5: the invariant (multiply_factor > 0, percentage_bonus > 0,
percentage_denominator = 10000) holds after successful construction and is
preserved by every successful mutator; no mutator ever changes
percentage_denominator. -/
theorem C5_invariant_preserved (s s2 : RewardProcessor) (caller imf v : Nat) :
    (constructor caller imf = Except.ok s2 → ConfigInv s2) ∧
    (ConfigInv s → update_multiply_factor s caller v = Except.ok s2 →
      ConfigInv s2 ∧ s2.percentage_denominator = s.percentage_denominator) ∧
    (ConfigInv s → update_percentage_bonus s caller v = Except.ok s2 →
      ConfigInv s2 ∧ s2.percentage_denominator = s.percentage_denominator) ∧
    (ConfigInv s → transfer_ownership s caller v = Except.ok s2 →
      ConfigInv s2 ∧ s2.percentage_denominator = s.percentage_denominator) := by
  refine ⟨?_, ?_, ?_, ?_⟩
  · intro h
    unfold constructor at h
    split at h
    · exact absurd h (by simp)
    · next hne =>
      simp only [Except.ok.injEq] at h
      subst h
      exact ⟨Nat.pos_of_ne_zero hne, by norm_num, rfl⟩
  · intro hInv h
    unfold update_multiply_factor assert_owner at h
    split at h
    · exact absurd h (by simp)
    · split at h
      · exact absurd h (by simp)
      · next hne =>
        simp only [Except.ok.injEq] at h
        subst h
        exact ⟨⟨Nat.pos_of_ne_zero hne, hInv.2.1, hInv.2.2⟩, rfl⟩
  · intro hInv h
    unfold update_percentage_bonus assert_owner at h
    split at h
    · exact absurd h (by simp)
    · split at h
      · exact absurd h (by simp)
      · next hne =>
        simp only [Except.ok.injEq] at h
        subst h
        exact ⟨⟨hInv.1, Nat.pos_of_ne_zero hne, hInv.2.2⟩, rfl⟩
  · intro hInv h
    unfold transfer_ownership assert_owner at h
    split at h
    · exact absurd h (by simp)
    · simp only [Except.ok.injEq] at h
      subst h
      exact ⟨⟨hInv.1, hInv.2.1, hInv.2.2⟩, rfl⟩

theorem C5_invariant_preserved_witness :
    ConfigInv ⟨5, 1, 10000, 1000⟩ ∧
    (ConfigInv ⟨7, 1, 10000, 1000⟩ ∧
      (RewardProcessor.mk 7 1 10000 1000).percentage_denominator
        = (RewardProcessor.mk 5 1 10000 1000).percentage_denominator) :=
  ⟨(C5_invariant_preserved ⟨5, 1, 10000, 1000⟩ ⟨5, 1, 10000, 1000⟩ 1 5 7).1 rfl,
   (C5_invariant_preserved ⟨5, 1, 10000, 1000⟩ ⟨7, 1, 10000, 1000⟩ 1 5 7).2.1
     (by decide) rfl⟩

/-- C7: transfer_ownership called by the current owner succeeds for every
new owner value (including 0, the null identity) without validation, and
replaces exactly the owner field; after a transfer to a different identity
every mutator call by the previous owner fails with Unauthorized. -/
theorem C7_transfer_ownership_spec (s : RewardProcessor)
    (caller new_owner v : Nat) (h : caller = s.owner) :
    transfer_ownership s caller new_owner = Except.ok { s with owner := new_owner } ∧
    (caller ≠ new_owner →
      update_multiply_factor { s with owner := new_owner } caller v
          = Except.error CommonError.unauthorized ∧
      update_percentage_bonus { s with owner := new_owner } caller v
          = Except.error CommonError.unauthorized ∧
      transfer_ownership { s with owner := new_owner } caller v
          = Except.error CommonError.unauthorized) := by
  constructor
  · unfold transfer_ownership assert_owner
    simp [h]
  · intro hne
    have haux := unauthorized_mutators_aux { s with owner := new_owner } caller v
      (by simpa using hne)
    exact ⟨haux.1, haux.2.1, haux.2.2.1⟩

theorem C7_transfer_ownership_spec_witness :
    transfer_ownership ⟨5, 1, 10000, 1000⟩ 1 0 = Except.ok ⟨5, 0, 10000, 1000⟩ ∧
    ((1 : Nat) ≠ 0 →
      update_multiply_factor ⟨5, 0, 10000, 1000⟩ 1 9
          = Except.error CommonError.unauthorized ∧
      update_percentage_bonus ⟨5, 0, 10000, 1000⟩ 1 9
          = Except.error CommonError.unauthorized ∧
      transfer_ownership ⟨5, 0, 10000, 1000⟩ 1 9
          = Except.error CommonError.unauthorized) :=
  C7_transfer_ownership_spec ⟨5, 1, 10000, 1000⟩ 1 0 9 rfl

/-- C9: with a positive denominator (as established by construction, which
fixes it to 10000) and time values in the 256-bit range, the reward
computation never divides by zero: the division-guarded version succeeds
and agrees with the unguarded function.  In the strictly-inside-window
branch the divisor end_time - start_time is strictly positive. -/
theorem C9_reward_total (s : RewardProcessor) (amount ct st et : Nat)
    (hb hsb : Bool) (hD : 0 < s.percentage_denominator)
    (het : et < M256) :
    calculate_reward_at_time_checked s amount ct st et hb hsb =
      some (calculate_reward_at_time s amount ct st et hb hsb) := by
  simp only [calculate_reward_at_time_checked, calculate_reward_at_time]
  by_cases h1 : ct ≤ st
  · simp [h1, hD.ne']
  · by_cases h2 : et ≤ ct
    · simp [h1, h2, hD.ne']
    · have hlt : st < et := lt_trans (not_le.mp h1) (not_le.mp h2)
      have hsub : sub256 et st = et - st := sub256_eq et st (le_of_lt hlt) het
      have hne : sub256 et st ≠ 0 := by
        rw [hsub]; omega
      simp [h1, h2, hne, hD.ne']

theorem C9_reward_total_witness :
    calculate_reward_at_time_checked ⟨5000, 1, 10000, 1000⟩ 1000 1500 1000 2000 true true =
      some (calculate_reward_at_time ⟨5000, 1, 10000, 1000⟩ 1000 1500 1000 2000 true true) :=
  C9_reward_total ⟨5000, 1, 10000, 1000⟩ 1000 1500 1000 2000 true true
    (by norm_num) (by norm_num [M256])

/-! The time-decay multiplier as computed by the code, factored out of
`calculate_reward_at_time` for the arithmetic proofs. -/

def codeMultiplier (s : RewardProcessor) (ct st et : Nat) : Nat :=
  if ct ≤ st then s.percentage_denominator
  else if ct ≥ et then s.percentage_denominator / 2
  else
    sub256 s.percentage_denominator
      (mul256 (sub256 s.percentage_denominator (s.percentage_denominator / 2))
        (sub256 ct st) / sub256 et st)

theorem reward_eq_code (s : RewardProcessor) (amount ct st et : Nat)
    (hb hsb : Bool) :
    calculate_reward_at_time s amount ct st et hb hsb =
      (if hsb then
        add256
          (if hb then
            add256 (mul256 amount (codeMultiplier s ct st et) / s.percentage_denominator)
              (mul256 amount s.percentage_bonus / s.percentage_denominator)
          else mul256 amount (codeMultiplier s ct st et) / s.percentage_denominator)
          (mul256 amount s.multiply_factor / s.percentage_denominator)
      else if hb then
        add256 (mul256 amount (codeMultiplier s ct st et) / s.percentage_denominator)
          (mul256 amount s.percentage_bonus / s.percentage_denominator)
      else mul256 amount (codeMultiplier s ct st et) / s.percentage_denominator) := by
  cases hb <;> cases hsb <;> rfl

theorem reward_eq_code_flagfree (s : RewardProcessor) (amount ct st et : Nat) :
    calculate_reward_at_time s amount ct st et false false =
      mul256 amount (codeMultiplier s ct st et) / s.percentage_denominator := rfl

theorem decay_amount_le (D e T : Nat) (he : e ≤ T) (hT : 0 < T) :
    (D - D / 2) * e / T ≤ D - D / 2 := by
  calc (D - D / 2) * e / T ≤ (D - D / 2) * T / T :=
        Nat.div_le_div_right (Nat.mul_le_mul_left _ he)
    _ = D - D / 2 := Nat.mul_div_cancel _ hT

theorem decayMultiplier_le_den (D ct st et : Nat) :
    decayMultiplier D ct st et ≤ D := by
  unfold decayMultiplier
  split_ifs
  · exact le_refl D
  · exact Nat.div_le_self D 2
  · exact Nat.sub_le _ _

theorem codeMultiplier_eq (s : RewardProcessor) (ct st et : Nat)
    (hDU : s.percentage_denominator < M256)
    (hct : ct < M256) (het : et < M256)
    (hov : (s.percentage_denominator - s.percentage_denominator / 2) * (et - st)
      < M256) :
    codeMultiplier s ct st et = decayMultiplier s.percentage_denominator ct st et := by
  unfold codeMultiplier decayMultiplier
  by_cases h1 : ct ≤ st
  · simp [h1]
  · by_cases h2 : et ≤ ct
    · simp [h1, h2, ge_iff_le]
    · have hstct : st < ct := not_le.mp h1
      have hctet : ct < et := not_le.mp h2
      have hstet : st < et := lt_trans hstct hctet
      simp only [ge_iff_le]
      rw [if_neg h1, if_neg h1, if_neg h2, if_neg h2]
      rw [sub256_eq et st (le_of_lt hstet) het,
          sub256_eq ct st (le_of_lt hstct) hct,
          sub256_eq s.percentage_denominator (s.percentage_denominator / 2)
            (Nat.div_le_self _ 2) hDU,
          mul256_eq _ _ (lt_of_le_of_lt
            (Nat.mul_le_mul_left _ (by omega : ct - st ≤ et - st)) hov),
          sub256_eq s.percentage_denominator _
            (le_trans (decay_amount_le _ (ct - st) (et - st) (by omega) (by omega))
              (Nat.sub_le _ _)) hDU]

theorem reward_flagfree_eq (s : RewardProcessor) (amount ct st et : Nat)
    (hDU : s.percentage_denominator < M256)
    (hct : ct < M256) (het : et < M256)
    (hov1 : amount * s.percentage_denominator < M256)
    (hov2 : (s.percentage_denominator - s.percentage_denominator / 2) * (et - st)
      < M256) :
    calculate_reward_at_time s amount ct st et false false =
      amount * decayMultiplier s.percentage_denominator ct st et
        / s.percentage_denominator := by
  rw [reward_eq_code_flagfree, codeMultiplier_eq s ct st et hDU hct het hov2,
      mul256_eq _ _ (lt_of_le_of_lt
        (Nat.mul_le_mul_left amount (decayMultiplier_le_den _ _ _ _)) hov1)]

/-- C1 (amended): under no-overflow bounds — a denominator below 2 ^ 256,
time values below 2 ^ 256, amount * D < 2 ^ 256 and
(D - D / 2) * (end_time - start_time) < 2 ^ 256 — the flag-free reward is
amount * m / D with truncating division, where m = decayMultiplier D
current_time start_time end_time, i.e. m = D before the window, D / 2 at or
after its end, and D - (D - D / 2) * (current_time - start_time) /
(end_time - start_time) strictly inside it.  Without the bounds the 256-bit
products wrap (see the counterexample). -/
theorem C1_reward_decay_formula (s : RewardProcessor) (amount ct st et : Nat)
    (hDU : s.percentage_denominator < M256)
    (hct : ct < M256) (het : et < M256)
    (hov1 : amount * s.percentage_denominator < M256)
    (hov2 : (s.percentage_denominator - s.percentage_denominator / 2) * (et - st)
      < M256) :
    calculate_reward_at_time s amount ct st et false false =
      amount * decayMultiplier s.percentage_denominator ct st et
        / s.percentage_denominator :=
  reward_flagfree_eq s amount ct st et hDU hct het hov1 hov2

theorem C1_reward_decay_formula_witness :
    calculate_reward_at_time ⟨5000, 1, 10000, 1000⟩ 1000 1500 1000 2000 false false =
      1000 * decayMultiplier 10000 1500 1000 2000 / 10000 :=
  C1_reward_decay_formula ⟨5000, 1, 10000, 1000⟩ 1000 1500 1000 2000
    (by decide) (by decide) (by decide) (by decide) (by decide)

/-- C1 counterexample: at amount = 2 ^ 255 with current_time ≤ start_time
and D = 10000 the claim predicts amount * D / D = 2 ^ 255, but the code
computes the product modulo 2 ^ 256, which wraps to 0, so the reward is 0. -/
theorem C1_counterexample :
    calculate_reward_at_time ⟨1, 0, 10000, 1000⟩ (2 ^ 255) 0 0 0 false false ≠
      2 ^ 255 * decayMultiplier 10000 0 0 0 / 10000 := by decide

theorem base_lt_M256 (s : RewardProcessor) (amount ct st et : Nat) :
    calculate_reward_at_time s amount ct st et false false < M256 := by
  rw [reward_eq_code_flagfree]
  exact lt_of_le_of_lt (Nat.div_le_self _ _) (mul256_lt _ _)

theorem reward_decompose (s : RewardProcessor) (amount ct st et : Nat)
    (hb hsb : Bool)
    (h1 : amount * s.percentage_bonus < M256)
    (h2 : amount * s.multiply_factor < M256)
    (h3 : calculate_reward_at_time s amount ct st et false false
          + amount * s.percentage_bonus / s.percentage_denominator
          + amount * s.multiply_factor / s.percentage_denominator < M256) :
    calculate_reward_at_time s amount ct st et hb hsb =
      calculate_reward_at_time s amount ct st et false false
      + (if hb then amount * s.percentage_bonus / s.percentage_denominator else 0)
      + (if hsb then amount * s.multiply_factor / s.percentage_denominator else 0) := by
  have hm1 : mul256 amount s.percentage_bonus = amount * s.percentage_bonus :=
    mul256_eq _ _ h1
  have hm2 : mul256 amount s.multiply_factor = amount * s.multiply_factor :=
    mul256_eq _ _ h2
  rw [reward_eq_code, ← reward_eq_code_flagfree]
  simp only [hm1, hm2]
  generalize hx : calculate_reward_at_time s amount ct st et false false = base at h3 ⊢
  generalize hy : amount * s.percentage_bonus / s.percentage_denominator = b1 at h3 ⊢
  generalize hz : amount * s.multiply_factor / s.percentage_denominator = b2 at h3 ⊢
  cases hb <;> cases hsb <;>
    simp only [Bool.false_eq_true, if_false, if_true, Nat.add_zero]
  · rw [add256_eq base b2 (by omega)]
  · rw [add256_eq base b1 (by omega)]
  · rw [add256_eq base b1 (by omega), add256_eq (base + b1) b2 (by omega)]

/-- C2 (amended): under no-overflow bounds — amount * percentage_bonus and
amount * multiply_factor below 2 ^ 256 and the final sum below 2 ^ 256 —
the result with bonus flags equals the flag-free result plus, when
has_bonus, amount * percentage_bonus / D, plus, when has_strict_bonus,
amount * multiply_factor / D, both surcharges computed on the original
amount with truncating division.  Without the bounds the surcharge products
and the running sum wrap modulo 2 ^ 256 (see the counterexample). -/
theorem C2_bonus_additive (s : RewardProcessor) (amount ct st et : Nat)
    (hb hsb : Bool)
    (h1 : amount * s.percentage_bonus < M256)
    (h2 : amount * s.multiply_factor < M256)
    (h3 : calculate_reward_at_time s amount ct st et false false
          + amount * s.percentage_bonus / s.percentage_denominator
          + amount * s.multiply_factor / s.percentage_denominator < M256) :
    calculate_reward_at_time s amount ct st et hb hsb =
      calculate_reward_at_time s amount ct st et false false
      + (if hb then amount * s.percentage_bonus / s.percentage_denominator else 0)
      + (if hsb then amount * s.multiply_factor / s.percentage_denominator else 0) :=
  reward_decompose s amount ct st et hb hsb h1 h2 h3

theorem C2_bonus_additive_witness :
    calculate_reward_at_time ⟨5000, 1, 10000, 1000⟩ 1000 1500 1000 2000 true true =
      calculate_reward_at_time ⟨5000, 1, 10000, 1000⟩ 1000 1500 1000 2000 false false
      + (if true then 1000 * 1000 / 10000 else 0)
      + (if true then 1000 * 5000 / 10000 else 0) :=
  C2_bonus_additive ⟨5000, 1, 10000, 1000⟩ 1000 1500 1000 2000 true true
    (by decide) (by decide) (by decide)

/-- C2 counterexample: at amount = 2 ^ 255 with has_bonus set, the claim
predicts the flag-free reward plus 2 ^ 255 * 1000 / 10000, a huge number,
but the code computes the surcharge product modulo 2 ^ 256 — it wraps to 0,
so the bonus contributes nothing. -/
theorem C2_counterexample :
    calculate_reward_at_time ⟨5000, 0, 10000, 1000⟩ (2 ^ 255) 0 0 0 true false ≠
      calculate_reward_at_time ⟨5000, 0, 10000, 1000⟩ (2 ^ 255) 0 0 0 false false
      + 2 ^ 255 * 1000 / 10000 := by decide

theorem decayMultiplier_antitone (D st et t1 t2 : Nat) (h : t1 ≤ t2) :
    decayMultiplier D t2 st et ≤ decayMultiplier D t1 st et := by
  unfold decayMultiplier
  by_cases h1 : t1 ≤ st
  · rw [if_pos h1]
    by_cases h2 : t2 ≤ st
    · rw [if_pos h2]
    · rw [if_neg h2]
      split_ifs
      · exact Nat.div_le_self D 2
      · exact Nat.sub_le _ _
  · rw [if_neg h1, if_neg (show ¬ t2 ≤ st by omega)]
    by_cases h3 : et ≤ t1
    · rw [if_pos h3, if_pos (show et ≤ t2 by omega)]
    · rw [if_neg h3]
      by_cases h4 : et ≤ t2
      · rw [if_pos h4]
        have hd := decay_amount_le D (t1 - st) (et - st) (by omega) (by omega)
        generalize (D - D / 2) * (t1 - st) / (et - st) = X at hd ⊢
        omega
      · rw [if_neg h4]
        have hmul : (D - D / 2) * (t1 - st) ≤ (D - D / 2) * (t2 - st) :=
          Nat.mul_le_mul_left _ (by omega)
        have hdiv : (D - D / 2) * (t1 - st) / (et - st)
            ≤ (D - D / 2) * (t2 - st) / (et - st) := Nat.div_le_div_right hmul
        generalize (D - D / 2) * (t1 - st) / (et - st) = X at hdiv ⊢
        generalize (D - D / 2) * (t2 - st) / (et - st) = Y at hdiv ⊢
        omega

theorem base_le_amount (s : RewardProcessor) (amount ct st et : Nat)
    (hD : 0 < s.percentage_denominator)
    (hDU : s.percentage_denominator < M256)
    (hct : ct < M256) (het : et < M256)
    (hov1 : amount * s.percentage_denominator < M256)
    (hov2 : (s.percentage_denominator - s.percentage_denominator / 2) * (et - st)
      < M256) :
    calculate_reward_at_time s amount ct st et false false ≤ amount := by
  rw [reward_flagfree_eq s amount ct st et hDU hct het hov1 hov2]
  calc amount * decayMultiplier s.percentage_denominator ct st et
        / s.percentage_denominator
      ≤ amount * s.percentage_denominator / s.percentage_denominator :=
        Nat.div_le_div_right (Nat.mul_le_mul_left _ (decayMultiplier_le_den _ _ _ _))
    _ = amount := Nat.mul_div_cancel _ hD

/-- C10: with amount, times and configuration fixed and all of the 256-bit
products and the final sum below 2 ^ 256 (no overflow), the reward is
non-increasing in current_time: for t1 ≤ t2 the reward at t2 is at most the
reward at t1, for every combination of bonus flags. -/
theorem C10_reward_antitone (s : RewardProcessor) (amount t1 t2 st et : Nat)
    (hb hsb : Bool)
    (hD : 0 < s.percentage_denominator)
    (hDU : s.percentage_denominator < M256)
    (ht1 : t1 < M256) (ht2 : t2 < M256) (het : et < M256)
    (h12 : t1 ≤ t2)
    (hov1 : amount * s.percentage_denominator < M256)
    (hovb : amount * s.percentage_bonus < M256)
    (hovm : amount * s.multiply_factor < M256)
    (hov2 : (s.percentage_denominator - s.percentage_denominator / 2) * (et - st)
      < M256)
    (hsum : amount + amount * s.percentage_bonus / s.percentage_denominator
            + amount * s.multiply_factor / s.percentage_denominator < M256) :
    calculate_reward_at_time s amount t2 st et hb hsb ≤
      calculate_reward_at_time s amount t1 st et hb hsb := by
  have hba1 := base_le_amount s amount t1 st et hD hDU ht1 het hov1 hov2
  have hba2 := base_le_amount s amount t2 st et hD hDU ht2 het hov1 hov2
  have hmono : calculate_reward_at_time s amount t2 st et false false ≤
      calculate_reward_at_time s amount t1 st et false false := by
    rw [reward_flagfree_eq s amount t1 st et hDU ht1 het hov1 hov2,
        reward_flagfree_eq s amount t2 st et hDU ht2 het hov1 hov2]
    exact Nat.div_le_div_right
      (Nat.mul_le_mul_left _ (decayMultiplier_antitone _ _ _ _ _ h12))
  rw [reward_decompose s amount t1 st et hb hsb hovb hovm (by
        generalize amount * s.percentage_bonus / s.percentage_denominator = b1 at hsum ⊢
        generalize amount * s.multiply_factor / s.percentage_denominator = b2 at hsum ⊢
        omega),
      reward_decompose s amount t2 st et hb hsb hovb hovm (by
        generalize amount * s.percentage_bonus / s.percentage_denominator = b1 at hsum ⊢
        generalize amount * s.multiply_factor / s.percentage_denominator = b2 at hsum ⊢
        omega)]
  generalize amount * s.percentage_bonus / s.percentage_denominator = b1
  generalize amount * s.multiply_factor / s.percentage_denominator = b2
  cases hb <;> cases hsb <;> simp only [Bool.false_eq_true, if_false, if_true] <;> omega

theorem C10_reward_antitone_witness :
    calculate_reward_at_time ⟨5000, 1, 10000, 1000⟩ 1000 1800 1000 2000 true true ≤
      calculate_reward_at_time ⟨5000, 1, 10000, 1000⟩ 1000 1500 1000 2000 true true :=
  C10_reward_antitone ⟨5000, 1, 10000, 1000⟩ 1000 1500 1800 1000 2000 true true
    (by decide) (by decide) (by decide) (by decide) (by decide) (by decide)
    (by decide) (by decide) (by decide) (by decide) (by decide)
